import Mathlib

/-!
# Order presentation logic and order schema

A shallow embedding of

* `proj2/frontend/src/pages/MyOrders/MyOrders.jsx`: the per-order derivations made in the
  body of `data.map((order, index) => ...)` (cancellation flag, progress, pricing, rating
  display, cancel button), and
* `proj2/backend/models/orderModel.js`: `STATUS_VALUES` and `orderSchema`.

Conventions of the embedding.

* JavaScript values that the code inspects dynamically are values of `JsVal`.
* Numbers are rationals: every number reaching this code comes from JSON or from a
  millisecond clock, hence is finite; rounding of IEEE doubles is not modelled.
* A field the schema types as `String` is an `Option String`; `none` stands for a nullish
  field (`undefined` or `null`), which is all that `?.` and `&&` can tell apart from a string.
* `order.userId` is a string: the schema requires it, and `order.userId.toString()` throws
  on an order without it, so no derived value exists for such an order.
* `Date.now()` is an explicit argument `now` (milliseconds).
* Strings are well-formed Unicode strings; their JavaScript `length` counts UTF-16 code units
  (`JsString.length`).
-/

namespace JsString

/-- The `length` of a JavaScript string: its number of UTF-16 code units, two for a character
outside the Basic Multilingual Plane. -/
def length (s : String) : Nat :=
  (s.toList.map (fun c => if c.toNat < 65536 then 1 else 2)).sum

/-- The code points that `String.prototype.trim` strips: WhiteSpace (TAB, VT, FF, ZWNBSP and
the space separators) and LineTerminator (LF, CR, LS, PS). -/
def isWhiteSpace (c : Char) : Bool :=
  decide (c.toNat ∈ [0x09, 0x0A, 0x0B, 0x0C, 0x0D, 0x20, 0xA0, 0x1680, 0x2028, 0x2029, 0x202F,
    0x205F, 0x3000, 0xFEFF]) || (decide (0x2000 ≤ c.toNat) && decide (c.toNat ≤ 0x200A))

/-- The method `String.prototype.trim()`. -/
def trim (s : String) : String :=
  String.mk ((s.toList.dropWhile isWhiteSpace).reverse.dropWhile isWhiteSpace).reverse

end JsString

namespace MyOrders

/-- JavaScript values: `undefined`, `null`, booleans, finite numbers and strings. -/
inductive JsVal where
  | undefined
  | null
  | bool (b : Bool)
  | num (q : ℚ)
  | str (s : String)
  deriving DecidableEq

/-- ToBoolean of a JavaScript value: `undefined`, `null`, `false`, `0` and `""` are falsy. -/
def JsVal.truthy : JsVal → Bool
  | .undefined => false
  | .null => false
  | .bool b => b
  | .num q => decide (q ≠ 0)
  | .str s => decide (s ≠ "")

/-- The value of `x?.toString()` for a field `x` that is a string or nullish:
`undefined` when `x` is nullish, the string itself otherwise. -/
def optToString : Option String → JsVal
  | none => .undefined
  | some s => .str s

/-- One element of `data`, with the fields that the render callback reads.
`userId` is required by `orderSchema` and is a string; `date` is
`new Date(order.date).getTime()`, the creation time in milliseconds. -/
structure Order where
  userId : String
  claimedBy : Option String
  originalUserId : Option String
  status : String
  date : Int
  amount : JsVal
  originalAmount : JsVal
  rating : Option ℚ

/-- Lines 109-119: the derived flag `isCancelled`;
`currentUserId` is the value returned by `getUserId()`. -/
def isCancelled (order : Order) (currentUserId : JsVal) : Bool :=
  if optToString order.claimedBy = currentUserId then
    false
  else if JsVal.str order.userId = currentUserId ∧ order.status = "Claimed" then
    true
  else if order.status = "Redistribute" then
    true
  else
    false

/-- Line 121: `order.status === "Delivered"`. -/
def isDeliveredStatus (order : Order) : Bool :=
  decide (order.status = "Delivered")

/-- Line 122: `order.status === "Donated"`. -/
def isDonatedStatus (order : Order) : Bool :=
  decide (order.status = "Donated")

/-- Lines 84-91: `calculateProgress(createdAt)`, with `Date.now()` passed as `now`. -/
def calculateProgress (createdAt : Int) (now : Int) : ℚ :=
  let createdTime : ℚ := createdAt
  let currentTime : ℚ := now
  let twoMinutes : ℚ := 2 * 60 * 1000
  let elapsed : ℚ := currentTime - createdTime
  min ((elapsed / twoMinutes) * 100) 100

/-- Lines 107 and 124-127: the variable `progress` after the Delivered/Donated override. -/
def progress (order : Order) (now : Int) : ℚ :=
  if isDeliveredStatus order || isDonatedStatus order then 100
  else calculateProgress order.date now

/-- Lines 130-131: `typeof order.amount === "number" ? order.amount : 0`. -/
def currentAmount (order : Order) : ℚ :=
  match order.amount with
  | .num q => q
  | _ => 0

/-- Lines 133-136: `order.originalAmount` when it is a number, else `currentAmount`. -/
def originalAmount (order : Order) : ℚ :=
  match order.originalAmount with
  | .num q => q
  | _ => currentAmount order

/-- Lines 139-141: `order.originalUserId && order.originalUserId.toString() !==
order.userId.toString()`. A falsy `originalUserId` is the value of the expression (a nullish
one is represented by `undefined`). -/
def isClaimedOrder (order : Order) : JsVal :=
  if (optToString order.originalUserId).truthy then
    .bool (decide (optToString order.originalUserId ≠ .str order.userId))
  else
    optToString order.originalUserId

/-- Lines 143-144: `isClaimedOrder && originalAmount > currentAmount`. -/
def hasDiscount (order : Order) : JsVal :=
  if (isClaimedOrder order).truthy then
    .bool (decide (originalAmount order > currentAmount order))
  else
    isClaimedOrder order

/-- Lines 146-148: `hasDiscount ? Math.max(originalAmount - currentAmount, 0) : 0`. -/
def savings (order : Order) : ℚ :=
  if (hasDiscount order).truthy then max (originalAmount order - currentAmount order) 0
  else 0

/-- Line 273: the `disabled` attribute of the cancel button. -/
def cancelDisabled (order : Order) (currentUserId : JsVal) : Bool :=
  isDeliveredStatus order || isDonatedStatus order || isCancelled order currentUserId

/-- The value `order.rating` as the callback sees it. -/
def ratingValue (order : Order) : JsVal :=
  match order.rating with
  | none => .undefined
  | some q => .num q

/-- Lines 244-246: whether the "Rate order" button is rendered:
`!isCancelled && isDeliveredStatus && !order.rating`. -/
def showRateOrder (order : Order) (currentUserId : JsVal) : Bool :=
  !isCancelled order currentUserId && isDeliveredStatus order && !(ratingValue order).truthy

/-- ToIntegerOrInfinity of a finite number: truncation towards zero. -/
def toIntegerOrInfinity (q : ℚ) : Int :=
  Int.tdiv q.num q.den

/-- The method `String.prototype.repeat(count)`: a `RangeError` (`none`) for a negative
count. The engine limit on the length of the result is not modelled. -/
def jsRepeat (s : String) (count : ℚ) : Option String :=
  if toIntegerOrInfinity count < 0 then none
  else some (String.join (List.replicate (toIntegerOrInfinity count).toNat s))

/-- The method `String.prototype.padEnd(maxLength, fillString)`, lengths in UTF-16 code
units. The filler is cut by characters, which is the cut by code units for a `fillString`
of the Basic Multilingual Plane, as `"☆"` is. -/
def padEnd (s : String) (maxLength : Nat) (fillString : String) : String :=
  if maxLength ≤ JsString.length s then s
  else s ++ String.mk
    ((List.replicate (maxLength - JsString.length s) fillString.toList).flatten.take
      (maxLength - JsString.length s))

/-- What the expression of lines 258-269 renders: nothing (`hidden`, its value is `false` or
nullish), the text `0` (`zero`, its value is the number `0`, which React renders), the rating
display with its star string (`stars`), or nothing at all because `repeat` threw
(`rangeError`). -/
inductive RatingDisplay where
  | hidden
  | zero
  | stars (text : String)
  | rangeError
  deriving DecidableEq

/-- Lines 258-262: `!isCancelled && isDeliveredStatus && order.rating && (...)`, with the
star string `"★".repeat(order.rating).padEnd(5, "☆")`. A falsy `order.rating` is the value of
the expression. -/
def ratingDisplay (order : Order) (currentUserId : JsVal) : RatingDisplay :=
  if !isCancelled order currentUserId && isDeliveredStatus order then
    match order.rating with
    | none => .hidden
    | some r =>
      if (JsVal.num r).truthy then
        match jsRepeat "★" r with
        | some s => .stars (padEnd s 5 "☆")
        | none => .rangeError
      else
        .zero
  else
    .hidden

/-- Lines 19-27: `getUserId()`, with the context value `token` as an argument.
`payloadId segment` stands for `JSON.parse(atob(segment)).id` applied to
`token.split(".")[1]` (`none` for `undefined`); its result `none` is an exception, which the
`catch` turns into `null`. A truthy token that is not a string has no `split` method, which
throws inside the `try` as well. -/
def getUserId (payloadId : Option String → Option JsVal) (token : JsVal) : JsVal :=
  if !token.truthy then
    .null
  else
    match token with
    | .str s =>
      match payloadId ((s.splitOn ".")[1]?) with
      | some id => id
      | none => .null
    | _ => .null

/-! ### Sample orders -/

/-- An order in redistribution that the viewer `"U1"` has claimed. -/
def redistributeClaimedByViewer : Order :=
  { userId := "U1", claimedBy := some "U1", originalUserId := some "U0",
    status := "Redistribute", date := 0, amount := .num 40, originalAmount := .num 50,
    rating := none }

/-- An order in redistribution that nobody has claimed, owned by `"U0"`. -/
def redistributeUnclaimed : Order :=
  { userId := "U0", claimedBy := none, originalUserId := none,
    status := "Redistribute", date := 0, amount := .num 40, originalAmount := .undefined,
    rating := none }

/-- An order of `"U1"` that the server reports with the status `"Claimed"`. -/
def claimedAway : Order :=
  { userId := "U1", claimedBy := some "U2", originalUserId := none,
    status := "Claimed", date := 0, amount := .num 40, originalAmount := .undefined,
    rating := none }

/-- The pricing scenario: `amount=40`, `originalAmount=50`, `userId="U2"`,
`originalUserId="U1"`. -/
def discountScenario : Order :=
  { userId := "U2", claimedBy := some "U2", originalUserId := some "U1",
    status := "Food Processing", date := 0, amount := .num 40, originalAmount := .num 50,
    rating := none }

/-- An order being prepared, created at time `0`. -/
def freshOrder : Order :=
  { userId := "U1", claimedBy := none, originalUserId := none,
    status := "Food Processing", date := 0, amount := .num 40, originalAmount := .undefined,
    rating := none }

/-- An order being prepared whose creation time, `60000`, is later than the time `0` at which
it is viewed (the server clock is ahead of the browser clock). -/
def futureDated : Order :=
  { userId := "U1", claimedBy := none, originalUserId := none,
    status := "Food Processing", date := 60000, amount := .num 40,
    originalAmount := .undefined, rating := none }

/-- An order of `"U1"` whose status is `"Cancelled"`. -/
def cancelledOrder : Order :=
  { userId := "U1", claimedBy := none, originalUserId := none,
    status := "Cancelled", date := 0, amount := .num 40, originalAmount := .undefined,
    rating := none }

/-- A delivered order of `"U1"` rated `4`. -/
def fourStars : Order :=
  { userId := "U1", claimedBy := none, originalUserId := none,
    status := "Delivered", date := 0, amount := .num 40, originalAmount := .undefined,
    rating := some 4 }

end MyOrders

namespace OrderModel

/-- Lines 3-10: the allowed values of `status`. -/
def STATUS_VALUES : List String :=
  ["Food Processing", "Out for delivery", "Delivered", "Redistribute", "Cancelled", "Donated"]

/-- A document of the `order` model: one optional value per path of `orderSchema`, of the
type the schema declares for the path; `none` is a path that is not set (`undefined`), and
`null` values are not part of the model. A `Date` is its time value in milliseconds. The
elements of `items` and the content of `address` are not inspected by the schema. -/
structure OrderDoc where
  userId : Option String
  items : Option (List String)
  amount : Option ℚ
  address : Option (List (String × String))
  originalUserId : Option String
  originalUserName : Option String
  claimedBy : Option String
  claimedByName : Option String
  claimedAt : Option Int
  status : Option String
  date : Option Int
  payment : Option Bool
  rating : Option ℚ
  feedback : Option String
  ratedAt : Option Int

/-- The `required: true` check of a `String` path: a non-empty string. -/
def requiredString (v : Option String) : Bool :=
  match v with
  | some s => decide (s ≠ "")
  | none => false

/-- The `required: true` check of the other paths: the value is set. For the `Array` path
`items` an empty array passes. -/
def requiredValue {α : Type} (v : Option α) : Bool :=
  v.isSome

/-- The `enum` validator: a path that is not set passes, a value passes iff it is listed. -/
def enumValidator (values : List String) (v : Option String) : Bool :=
  match v with
  | some s => decide (s ∈ values)
  | none => true

/-- The `min` validator of a `Number` path. -/
def minValidator (min : ℚ) (v : Option ℚ) : Bool :=
  match v with
  | some q => decide (min ≤ q)
  | none => true

/-- The `max` validator of a `Number` path. -/
def maxValidator (max : ℚ) (v : Option ℚ) : Bool :=
  match v with
  | some q => decide (q ≤ max)
  | none => true

/-- The `maxlength` validator of a `String` path: `v.length <= maxlength`, the length in
UTF-16 code units. -/
def maxlengthValidator (maxlength : Nat) (v : Option String) : Bool :=
  match v with
  | some s => decide (JsString.length s ≤ maxlength)
  | none => true

/-- The document built from a candidate record by `orderSchema` (lines 12-48): the defaults
of `status`, `date` (`Date.now`, passed as `now`) and `payment` fill the paths that are not
set, the `Array` path `items` gets the empty array that every array path has as its default,
and the `trim: true` setter is applied to `feedback`. -/
def orderSchema_construct (candidate : OrderDoc) (now : Int) : OrderDoc :=
  { candidate with
    items := match candidate.items with
      | some a => some a
      | none => some []
    status := match candidate.status with
      | some s => some s
      | none => some "Food Processing"
    date := match candidate.date with
      | some d => some d
      | none => some now
    payment := match candidate.payment with
      | some b => some b
      | none => some false
    feedback := candidate.feedback.map JsString.trim }

/-- The paths of a document that fail a validator of `orderSchema` (lines 12-48), in schema
order; the list is the content of the `ValidationError`. -/
def orderSchema_validate (doc : OrderDoc) : List String :=
  (if requiredString doc.userId then [] else ["userId"]) ++
  (if requiredValue doc.items then [] else ["items"]) ++
  (if requiredValue doc.amount then [] else ["amount"]) ++
  (if requiredValue doc.address then [] else ["address"]) ++
  (if enumValidator STATUS_VALUES doc.status then [] else ["status"]) ++
  (if minValidator 1 doc.rating && maxValidator 5 doc.rating then [] else ["rating"]) ++
  (if maxlengthValidator 500 doc.feedback then [] else ["feedback"])

/-- Outcome of persisting a candidate record. -/
inductive SaveResult where
  | saved (doc : OrderDoc)
  | validationError (paths : List String)

/-- Persisting a candidate record with `orderModel` (lines 50-51): the document is built,
validated, and stored iff no path fails. -/
def orderModel_save (candidate : OrderDoc) (now : Int) : SaveResult :=
  if orderSchema_validate (orderSchema_construct candidate now) = [] then
    .saved (orderSchema_construct candidate now)
  else
    .validationError (orderSchema_validate (orderSchema_construct candidate now))

/-- The required fields of a candidate record are present (`userId` a non-empty string, as
its `required` check demands). -/
def requiredPresent (candidate : OrderDoc) : Prop :=
  requiredString candidate.userId = true ∧ requiredValue candidate.items = true ∧
    requiredValue candidate.amount = true ∧ requiredValue candidate.address = true

/-- The constraints of the optional fields `rating` and `feedback` hold for a candidate:
the rating lies in `[1, 5]` and the trimmed feedback has at most 500 code units. -/
def ratingAndFeedbackValid (candidate : OrderDoc) : Prop :=
  (minValidator 1 candidate.rating && maxValidator 5 candidate.rating) = true ∧
    maxlengthValidator 500 (candidate.feedback.map JsString.trim) = true

/-- A candidate record with the required fields and nothing else. -/
def minimalCandidate : OrderDoc :=
  { userId := some "U1", items := some ["Salad"], amount := some 40,
    address := some [("street", "1 Main St")], originalUserId := none,
    originalUserName := none, claimedBy := none, claimedByName := none, claimedAt := none,
    status := none, date := none, payment := none, rating := none, feedback := none,
    ratedAt := none }

/-- The minimal candidate with `status: "InvalidValue"`. -/
def invalidStatusCandidate : OrderDoc :=
  { minimalCandidate with status := some "InvalidValue" }

/-- The minimal candidate with `status: "Delivered"` and the rating `4.5`. -/
def halfStarCandidate : OrderDoc :=
  { minimalCandidate with status := some "Delivered", rating := some (9 / 2) }

/-- The minimal candidate with the rating `7`. -/
def sevenStarCandidate : OrderDoc :=
  { minimalCandidate with rating := some 7 }

/-- The minimal candidate with `status: "Delivered"` and the rating `7`. -/
def sevenStarDelivered : OrderDoc :=
  { minimalCandidate with status := some "Delivered", rating := some 7 }

/-- A candidate without `items`, with feedback padded by no-break spaces (U+00A0). -/
def paddedFeedbackCandidate : OrderDoc :=
  { minimalCandidate with
    items := none, status := some "Delivered", rating := some 4,
    feedback := some "\u00A0Great\u00A0" }

end OrderModel

namespace MyOrders

/-! ## Cancellation flag -/

/-- C1: for every order and every viewer id, `isCancelled` follows the four rules in
priority order: false when `claimedBy` (as `claimedBy?.toString()`) is the viewer id;
otherwise true when `userId` is the viewer id and the status is `"Claimed"`; otherwise true
when the status is `"Redistribute"`; otherwise false. Equivalently the flag is true iff
`claimedBy` is not the viewer and (`userId` is the viewer and the status is `"Claimed"`, or
the status is `"Redistribute"`). -/
theorem isCancelled_four_rules (order : Order) (viewer : JsVal) :
    (optToString order.claimedBy = viewer → isCancelled order viewer = false) ∧
    (optToString order.claimedBy ≠ viewer → JsVal.str order.userId = viewer →
      order.status = "Claimed" → isCancelled order viewer = true) ∧
    (optToString order.claimedBy ≠ viewer →
      ¬ (JsVal.str order.userId = viewer ∧ order.status = "Claimed") →
      order.status = "Redistribute" → isCancelled order viewer = true) ∧
    (optToString order.claimedBy ≠ viewer →
      ¬ (JsVal.str order.userId = viewer ∧ order.status = "Claimed") →
      order.status ≠ "Redistribute" → isCancelled order viewer = false) ∧
    (isCancelled order viewer = true ↔
      optToString order.claimedBy ≠ viewer ∧
        ((JsVal.str order.userId = viewer ∧ order.status = "Claimed") ∨
          order.status = "Redistribute")) := by
  refine ⟨?_, ?_, ?_, ?_, ?_⟩
  · intro h
    simp [isCancelled, h]
  · intro h1 h2 h3
    simp [isCancelled, h1, h2, h3]
  · intro h1 h2 h3
    simp only [isCancelled, if_neg h1, if_neg h2, if_pos h3]
  · intro h1 h2 h3
    simp only [isCancelled, if_neg h1, if_neg h2, if_neg h3]
  · by_cases h1 : optToString order.claimedBy = viewer
    · simp [isCancelled, h1]
    · by_cases h2 : JsVal.str order.userId = viewer ∧ order.status = "Claimed"
      · simp only [isCancelled, if_neg h1, if_pos h2]
        simp [h1, h2]
      · by_cases h3 : order.status = "Redistribute"
        · simp only [isCancelled, if_neg h1, if_neg h2, if_pos h3]
          simp [h1, h3]
        · simp only [isCancelled, if_neg h1, if_neg h2, if_neg h3]
          simp [h2, h3]

/-- Witness for C1 at the order `claimedAway` seen by its owner `"U1"`. -/
theorem isCancelled_four_rules_witness :
    optToString claimedAway.claimedBy ≠ .str "U1" ∧
    isCancelled claimedAway (.str "U1") = true :=
  ⟨by decide, (isCancelled_four_rules claimedAway (.str "U1")).2.1 (by decide) rfl rfl⟩

/-- C2, as stated, fails: the order `redistributeClaimedByViewer` has the status
`"Redistribute"`, yet for the viewer `"U1"` who claimed it the flag is false. -/
theorem redistribute_not_always_cancelled :
    redistributeClaimedByViewer.status = "Redistribute" ∧
    isCancelled redistributeClaimedByViewer (.str "U1") = false := by
  constructor
  · rfl
  · decide

/-- C2, amended: for an order with the status `"Redistribute"`, the flag is true for every
viewer id other than `claimedBy`, whatever `userId` is; for the viewer whose id is
`claimedBy` it is false. -/
theorem redistribute_cancelled_unless_claimant (order : Order) (viewer : JsVal)
    (hs : order.status = "Redistribute") :
    (optToString order.claimedBy ≠ viewer → isCancelled order viewer = true) ∧
    (optToString order.claimedBy = viewer → isCancelled order viewer = false) := by
  constructor
  · intro h1
    by_cases h2 : JsVal.str order.userId = viewer ∧ order.status = "Claimed"
    · simp only [isCancelled, if_neg h1, if_pos h2]
    · simp only [isCancelled, if_neg h1, if_neg h2, if_pos hs]
  · intro h1
    simp [isCancelled, h1]

/-- Witness for the amended C2 at the unclaimed order `redistributeUnclaimed`. -/
theorem redistribute_cancelled_unless_claimant_witness :
    redistributeUnclaimed.status = "Redistribute" ∧
    isCancelled redistributeUnclaimed (.str "U9") = true :=
  ⟨rfl, (redistribute_cancelled_unless_claimant redistributeUnclaimed (.str "U9") rfl).1
    (by decide)⟩

/-! ## Pricing -/

theorem truthy_isClaimedOrder (order : Order) (h : (isClaimedOrder order).truthy = true) :
    ∃ ou, order.originalUserId = some ou ∧ ou ≠ "" ∧ ou ≠ order.userId := by
  unfold isClaimedOrder at h
  cases hou : order.originalUserId with
  | none => simp [hou, optToString, JsVal.truthy] at h
  | some ou =>
    refine ⟨ou, rfl, ?_⟩
    by_cases he : ou = ""
    · simp [hou, optToString, JsVal.truthy, he] at h
    · simpa [hou, optToString, JsVal.truthy, he] using h

theorem truthy_hasDiscount (order : Order) (h : (hasDiscount order).truthy = true) :
    (isClaimedOrder order).truthy = true ∧ originalAmount order > currentAmount order := by
  unfold hasDiscount at h
  by_cases hc : (isClaimedOrder order).truthy = true
  · refine ⟨hc, ?_⟩
    rw [if_pos hc] at h
    simpa [JsVal.truthy] using h
  · rw [if_neg hc] at h
    exact absurd h hc

/-- C3: `hasDiscount` is truthy only if `isClaimedOrder` is truthy (so `originalUserId` is
present and differs from `userId`) and `originalAmount > currentAmount`, where
`currentAmount` is `amount` (0 when it is not a number) and `originalAmount` is the field of
that name (`currentAmount` when it is not a number); `savings` is
`originalAmount - currentAmount` when `hasDiscount` is truthy and 0 otherwise, hence never
negative. In the scenario `amount=40`, `originalAmount=50`, `userId="U2"`,
`originalUserId="U1"` the order is claimed, has a discount, and `savings` is 10. -/
theorem pricing_discount_sound (order : Order) :
    ((hasDiscount order).truthy = true →
      (isClaimedOrder order).truthy = true ∧
      (∃ ou, order.originalUserId = some ou ∧ ou ≠ order.userId) ∧
      originalAmount order > currentAmount order) ∧
    (∀ q, order.amount = .num q → currentAmount order = q) ∧
    ((∀ q, order.amount ≠ .num q) → currentAmount order = 0) ∧
    (∀ q, order.originalAmount = .num q → originalAmount order = q) ∧
    ((∀ q, order.originalAmount ≠ .num q) → originalAmount order = currentAmount order) ∧
    ((hasDiscount order).truthy = true →
      savings order = originalAmount order - currentAmount order) ∧
    ((hasDiscount order).truthy = false → savings order = 0) ∧
    0 ≤ savings order ∧
    (isClaimedOrder discountScenario = .bool true ∧
      hasDiscount discountScenario = .bool true ∧ savings discountScenario = 10) := by
  refine ⟨?_, ?_, ?_, ?_, ?_, ?_, ?_, ?_, ?_⟩
  · intro h
    obtain ⟨hc, hgt⟩ := truthy_hasDiscount order h
    obtain ⟨ou, h1, _, h3⟩ := truthy_isClaimedOrder order hc
    exact ⟨hc, ⟨ou, h1, h3⟩, hgt⟩
  · intro q hq
    simp [currentAmount, hq]
  · intro hq
    unfold currentAmount
    cases ha : order.amount with
    | num q => exact absurd ha (hq q)
    | undefined => rfl
    | null => rfl
    | bool b => rfl
    | str s => rfl
  · intro q hq
    simp [originalAmount, hq]
  · intro hq
    unfold originalAmount
    cases ha : order.originalAmount with
    | num q => exact absurd ha (hq q)
    | undefined => rfl
    | null => rfl
    | bool b => rfl
    | str s => rfl
  · intro h
    have hgt := (truthy_hasDiscount order h).2
    unfold savings
    rw [if_pos h]
    exact max_eq_left (by linarith)
  · intro h
    unfold savings
    simp [h]
  · unfold savings
    split
    · exact le_max_right _ _
    · exact le_refl _
  · have h1 : isClaimedOrder discountScenario = .bool true := by
      simp [isClaimedOrder, discountScenario, optToString, JsVal.truthy]
    have h2 : hasDiscount discountScenario = .bool true := by
      rw [hasDiscount, h1]
      simp [JsVal.truthy, originalAmount, currentAmount, discountScenario]
      norm_num
    refine ⟨h1, h2, ?_⟩
    rw [savings, h2]
    simp [JsVal.truthy, originalAmount, currentAmount, discountScenario]
    norm_num

/-- Witness for C3 at the scenario order: it has a discount and `savings` is
`originalAmount - currentAmount`. -/
theorem pricing_discount_sound_witness :
    (hasDiscount discountScenario).truthy = true ∧
    savings discountScenario = originalAmount discountScenario - currentAmount discountScenario :=
  have h : (hasDiscount discountScenario).truthy = true := by
    rw [(pricing_discount_sound discountScenario).2.2.2.2.2.2.2.2.2.1]
    rfl
  ⟨h, (pricing_discount_sound discountScenario).2.2.2.2.2.1 h⟩

/-! ## Progress -/

theorem calculateProgress_mono (createdAt now1 now2 : Int) (h : now1 ≤ now2) :
    calculateProgress createdAt now1 ≤ calculateProgress createdAt now2 := by
  have hq : (now1 : ℚ) ≤ (now2 : ℚ) := by exact_mod_cast h
  unfold calculateProgress
  apply min_le_min _ (le_refl _)
  linarith

theorem calculateProgress_saturated (createdAt now : Int) (h : 120000 ≤ now - createdAt) :
    calculateProgress createdAt now = 100 := by
  have hq : (120000 : ℚ) ≤ (now : ℚ) - (createdAt : ℚ) := by exact_mod_cast h
  unfold calculateProgress
  apply min_eq_right
  linarith

theorem progress_of_final_status (order : Order) (now : Int)
    (h : order.status = "Delivered" ∨ order.status = "Donated") : progress order now = 100 := by
  unfold progress isDeliveredStatus isDonatedStatus
  rcases h with h | h <;> simp [h]

/-- C4: with the current time as a parameter, the displayed progress (`calculateProgress`
followed by the Delivered/Donated override) is non-decreasing in the elapsed time: for every
order and `now1 ≤ now2`, `progress order now1 ≤ progress order now2`; it is 100 whenever the
elapsed time is at least 120000 ms; and it is exactly 100 for the statuses `"Delivered"` and
`"Donated"` whatever the elapsed time. -/
theorem progress_monotone_saturating (order : Order) :
    (∀ now1 now2 : Int, now1 ≤ now2 → progress order now1 ≤ progress order now2) ∧
    (∀ now : Int, 120000 ≤ now - order.date → progress order now = 100) ∧
    (∀ now : Int, order.status = "Delivered" ∨ order.status = "Donated" →
      progress order now = 100) := by
  refine ⟨?_, ?_, ?_⟩
  · intro now1 now2 h
    unfold progress
    split
    · exact le_refl _
    · exact calculateProgress_mono order.date now1 now2 h
  · intro now h
    unfold progress
    split
    · rfl
    · exact calculateProgress_saturated order.date now h
  · intro now h
    exact progress_of_final_status order now h

/-- Witness for C4 at `freshOrder`: progress does not decrease from 30 s to 90 s, and is 100
after 150 s. -/
theorem progress_monotone_saturating_witness :
    progress freshOrder 30000 ≤ progress freshOrder 90000 ∧ progress freshOrder 150000 = 100 :=
  ⟨(progress_monotone_saturating freshOrder).1 30000 90000 (by decide),
    (progress_monotone_saturating freshOrder).2.1 150000 (by decide)⟩

/-- C5 at a failing input: the order `futureDated`, created 60 s after the time at which it
is viewed, has the displayed progress `-50`, below 0. Only the upper bound holds for every
order and time. -/
theorem progress_negative_for_future_date :
    progress futureDated 0 = -50 ∧ ¬ (0 ≤ progress futureDated 0) ∧
    (∀ (order : Order) (now : Int), progress order now ≤ 100) := by
  have h : progress futureDated 0 = -50 := by
    simp [progress, isDeliveredStatus, isDonatedStatus, futureDated, calculateProgress]
    norm_num
  refine ⟨h, ?_, ?_⟩
  · rw [h]
    norm_num
  · intro order now
    unfold progress
    split
    · exact le_refl _
    · exact min_le_right _ _

/-! ## Cancel button -/

/-- C6: for every order and viewer id the cancel button is enabled iff the status is neither
`"Delivered"` nor `"Donated"` and `isCancelled` is false; with the status `"Delivered"` it is
disabled for every viewer, with the status `"Food Processing"` it is enabled for every
viewer. -/
theorem cancel_button_enabled_iff (order : Order) (viewer : JsVal) :
    (cancelDisabled order viewer = false ↔
      order.status ≠ "Delivered" ∧ order.status ≠ "Donated" ∧
        isCancelled order viewer = false) ∧
    (order.status = "Delivered" → cancelDisabled order viewer = true) ∧
    (order.status = "Food Processing" → cancelDisabled order viewer = false) := by
  refine ⟨?_, ?_, ?_⟩
  · simp [cancelDisabled, isDeliveredStatus, isDonatedStatus, and_assoc]
  · intro h
    simp [cancelDisabled, isDeliveredStatus, h]
  · intro h
    by_cases h1 : optToString order.claimedBy = viewer
    · simp [cancelDisabled, isDeliveredStatus, isDonatedStatus, isCancelled, h, h1]
    · simp [cancelDisabled, isDeliveredStatus, isDonatedStatus, isCancelled, h, h1]

/-- Witness for C6 at `fourStars` (delivered, disabled) and `freshOrder` (being prepared,
enabled). -/
theorem cancel_button_enabled_iff_witness :
    cancelDisabled fourStars (.str "U1") = true ∧ cancelDisabled freshOrder (.str "U1") = false :=
  ⟨(cancel_button_enabled_iff fourStars (.str "U1")).2.1 rfl,
    (cancel_button_enabled_iff freshOrder (.str "U1")).2.2 rfl⟩

/-- C10 at a failing input: the order `cancelledOrder` has the status `"Cancelled"`, its
derived flag `isCancelled` is false for its owner `"U1"`, and the cancel button is not
disabled. -/
theorem cancelled_order_button_enabled :
    cancelledOrder.status = "Cancelled" ∧
    isCancelled cancelledOrder (.str "U1") = false ∧
    cancelDisabled cancelledOrder (.str "U1") = false := by
  refine ⟨rfl, ?_, ?_⟩ <;> decide

/-! ## Rating display and rating control -/

theorem toIntegerOrInfinity_natCast (r : ℕ) : toIntegerOrInfinity (r : ℚ) = (r : Int) := by
  simp [toIntegerOrInfinity]

theorem jsRepeat_star_natCast (r : ℕ) :
    jsRepeat "★" (r : ℚ) = some (String.join (List.replicate r "★")) := by
  simp [jsRepeat, toIntegerOrInfinity_natCast]

theorem showRateOrder_iff (order : Order) (viewer : JsVal) :
    showRateOrder order viewer = true ↔
      isCancelled order viewer = false ∧ order.status = "Delivered" ∧
        (order.rating = none ∨ order.rating = some 0) := by
  unfold showRateOrder isDeliveredStatus ratingValue
  cases order.rating with
  | none => simp [JsVal.truthy, and_assoc]
  | some q => simp [JsVal.truthy, and_assoc]

theorem rating_ne_zero_of_valid (order : Order)
    (hr : (OrderModel.minValidator 1 order.rating &&
      OrderModel.maxValidator 5 order.rating) = true) :
    order.rating ≠ some 0 := by
  intro h0
  rw [h0] at hr
  simp [OrderModel.minValidator, OrderModel.maxValidator] at hr
  norm_num at hr

/-- C9: for every order whose rating is one that `orderSchema` accepts (absent, or a number
in `[1, 5]`) and every viewer id: if the order is delivered, not derived-cancelled and has an
integer rating `r` with `1 ≤ r ≤ 5`, the star string is `r` filled stars followed by `5 - r`
empty ones and the "Rate order" control is not shown; the control is shown iff the order is
not derived-cancelled, its status is `"Delivered"` and it has no rating; when the control is
shown the expression of the rating display renders nothing, so the two are never both shown.
With `rating=4` the stars are four filled and one empty. -/
theorem rating_display_and_control (order : Order) (viewer : JsVal)
    (hr : (OrderModel.minValidator 1 order.rating &&
      OrderModel.maxValidator 5 order.rating) = true) :
    (∀ r : ℕ, 1 ≤ r → r ≤ 5 → order.status = "Delivered" →
      isCancelled order viewer = false → order.rating = some (r : ℚ) →
      ratingDisplay order viewer =
        .stars (String.mk (List.replicate r '★' ++ List.replicate (5 - r) '☆')) ∧
      showRateOrder order viewer = false) ∧
    (showRateOrder order viewer = true ↔
      isCancelled order viewer = false ∧ order.status = "Delivered" ∧
        order.rating = none) ∧
    (showRateOrder order viewer = true → ratingDisplay order viewer = .hidden) ∧
    ¬ (showRateOrder order viewer = true ∧ ratingDisplay order viewer ≠ .hidden) ∧
    (ratingDisplay fourStars (.str "U1") = .stars "★★★★☆" ∧
      showRateOrder fourStars (.str "U1") = false) := by
  have hne := rating_ne_zero_of_valid order hr
  have hshow : showRateOrder order viewer = true ↔
      isCancelled order viewer = false ∧ order.status = "Delivered" ∧
        order.rating = none := by
    rw [showRateOrder_iff]
    constructor
    · rintro ⟨hc, hs, h0 | h0⟩
      · exact ⟨hc, hs, h0⟩
      · exact absurd h0 hne
    · rintro ⟨hc, hs, hn⟩
      exact ⟨hc, hs, Or.inl hn⟩
  have hhid : showRateOrder order viewer = true → ratingDisplay order viewer = .hidden := by
    intro h
    have hn := (hshow.1 h).2.2
    unfold ratingDisplay
    simp [hn]
  have hfour : isCancelled fourStars (.str "U1") = false := by decide
  refine ⟨?_, hshow, hhid, ?_, ?_, ?_⟩
  · intro r h1 h5 hs hc hrat
    have hr0 : (r : ℚ) ≠ 0 := by
      have : r ≠ 0 := by omega
      exact_mod_cast this
    constructor
    · unfold ratingDisplay
      simp only [hc, isDeliveredStatus, hs, hrat, JsVal.truthy, jsRepeat_star_natCast]
      simp only [hr0, ne_eq, not_false_eq_true, decide_True, Bool.not_false, Bool.and_self,
        if_true]
      interval_cases r <;> decide
    · rw [Bool.eq_false_iff]
      intro h
      have hn := (hshow.1 h).2.2
      rw [hrat] at hn
      exact Option.noConfusion hn
  · rintro ⟨hs, hd⟩
    exact hd (hhid hs)
  · unfold ratingDisplay
    have h4 : fourStars.rating = some ((4 : ℕ) : ℚ) := by simp [fourStars]
    have hst : fourStars.status = "Delivered" := rfl
    simp only [hfour, isDeliveredStatus, hst, h4, JsVal.truthy, jsRepeat_star_natCast]
    norm_num
    decide
  · rw [Bool.eq_false_iff]
    intro h
    have h0 := ((showRateOrder_iff fourStars (.str "U1")).1 h).2.2
    simp [fourStars] at h0

/-- Witness for C9 at `fourStars`, rated 4: four filled stars and one empty star, and no
"Rate order" control. -/
theorem rating_display_and_control_witness :
    (OrderModel.minValidator 1 fourStars.rating &&
      OrderModel.maxValidator 5 fourStars.rating) = true ∧
    ratingDisplay fourStars (.str "U1") =
      .stars (String.mk (List.replicate 4 '★' ++ List.replicate (5 - 4) '☆')) ∧
    showRateOrder fourStars (.str "U1") = false :=
  have hv : (OrderModel.minValidator 1 fourStars.rating &&
      OrderModel.maxValidator 5 fourStars.rating) = true := by
    simp [fourStars, OrderModel.minValidator, OrderModel.maxValidator]
    norm_num
  ⟨hv, (rating_display_and_control fourStars (.str "U1") hv).1 4 (by decide) (by decide) rfl
    (by decide) (by simp [fourStars])⟩

/-! ## Viewer without a token -/

/-- C11: when the auth token is absent (`null`, `undefined` or the empty string),
`getUserId` returns `null`, whatever the payload decoder would do; with that viewer no
identity rule applies to any order: `claimedBy?.toString()` (in particular that of an order
with no `claimedBy`) is not the viewer id, `userId` is not the viewer id, and `isCancelled`
is true exactly when the status is `"Redistribute"`. -/
theorem getUserId_absent_token (payloadId : Option String → Option JsVal) (token : JsVal)
    (order : Order) (h : token = .null ∨ token = .undefined ∨ token = .str "") :
    getUserId payloadId token = .null ∧
    optToString order.claimedBy ≠ getUserId payloadId token ∧
    (order.claimedBy = none → optToString order.claimedBy ≠ getUserId payloadId token) ∧
    JsVal.str order.userId ≠ getUserId payloadId token ∧
    (isCancelled order (getUserId payloadId token) = true ↔
      order.status = "Redistribute") := by
  have hnull : getUserId payloadId token = .null := by
    rcases h with h | h | h <;> subst h <;> simp [getUserId, JsVal.truthy]
  have hc : optToString order.claimedBy ≠ JsVal.null := by
    cases order.claimedBy <;> simp [optToString]
  have hu : JsVal.str order.userId ≠ JsVal.null := by simp
  rw [hnull]
  refine ⟨rfl, hc, fun _ => hc, hu, ?_⟩
  unfold isCancelled
  rw [if_neg hc, if_neg (fun hh => hu hh.1)]
  by_cases hs : order.status = "Redistribute" <;> simp [hs]

/-- Witness for C11: with the token `null` the viewer is `null`, and the unclaimed order
`redistributeUnclaimed`, whose status is `"Redistribute"`, is derived-cancelled. -/
theorem getUserId_absent_token_witness :
    getUserId (fun _ => some (.str "U0")) .null = .null ∧
    isCancelled redistributeUnclaimed (getUserId (fun _ => some (.str "U0")) .null) = true :=
  ⟨(getUserId_absent_token (fun _ => some (.str "U0")) .null redistributeUnclaimed
      (Or.inl rfl)).1,
    (getUserId_absent_token (fun _ => some (.str "U0")) .null redistributeUnclaimed
      (Or.inl rfl)).2.2.2.2.mpr rfl⟩

end MyOrders

namespace OrderModel

/-! ## Validation of `status` and `rating` -/

theorem mem_pathError (x y : String) (p : Bool) :
    x ∈ (if p = true then ([] : List String) else [y]) ↔ p = false ∧ x = y := by
  cases p <;> simp

theorem status_error_iff (doc : OrderDoc) :
    "status" ∈ orderSchema_validate doc ↔ enumValidator STATUS_VALUES doc.status = false := by
  simp [orderSchema_validate, mem_pathError]

theorem rating_error_iff (doc : OrderDoc) :
    "rating" ∈ orderSchema_validate doc ↔
      (minValidator 1 doc.rating && maxValidator 5 doc.rating) = false := by
  simp only [orderSchema_validate, List.mem_append, mem_pathError]
  simp

theorem validate_eq_nil (doc : OrderDoc)
    (h1 : requiredString doc.userId = true) (h2 : requiredValue doc.items = true)
    (h3 : requiredValue doc.amount = true) (h4 : requiredValue doc.address = true)
    (h5 : enumValidator STATUS_VALUES doc.status = true)
    (h6 : (minValidator 1 doc.rating && maxValidator 5 doc.rating) = true)
    (h7 : maxlengthValidator 500 doc.feedback = true) :
    orderSchema_validate doc = [] := by
  simp [orderSchema_validate, h1, h2, h3, h4, h5, h6, h7]

theorem save_of_error (candidate : OrderDoc) (now : Int) (path : String)
    (h : path ∈ orderSchema_validate (orderSchema_construct candidate now)) :
    ∃ paths, orderModel_save candidate now = .validationError paths ∧ path ∈ paths := by
  refine ⟨orderSchema_validate (orderSchema_construct candidate now), ?_, h⟩
  unfold orderModel_save
  rw [if_neg]
  intro h0
  rw [h0] at h
  exact absurd h (List.not_mem_nil _)

theorem pathError_nil (y : String) (p : Bool) :
    (if p = true then ([] : List String) else [y]) = [] ↔ p = true := by
  cases p <;> simp

theorem enum_construct (candidate : OrderDoc) (now : Int) :
    enumValidator STATUS_VALUES (orderSchema_construct candidate now).status =
      enumValidator STATUS_VALUES candidate.status := by
  cases hs : candidate.status with
  | none => simp [orderSchema_construct, hs, enumValidator, STATUS_VALUES]
  | some st => simp [orderSchema_construct, hs]

theorem validate_construct_nil_iff (candidate : OrderDoc) (now : Int) :
    orderSchema_validate (orderSchema_construct candidate now) = [] ↔
      requiredString candidate.userId = true ∧ requiredValue candidate.amount = true ∧
      requiredValue candidate.address = true ∧
      enumValidator STATUS_VALUES candidate.status = true ∧
      ratingAndFeedbackValid candidate := by
  have hitems : requiredValue (orderSchema_construct candidate now).items = true := by
    cases hi : candidate.items <;> simp [orderSchema_construct, hi, requiredValue]
  have hu : (orderSchema_construct candidate now).userId = candidate.userId := rfl
  have ha : (orderSchema_construct candidate now).amount = candidate.amount := rfl
  have hd : (orderSchema_construct candidate now).address = candidate.address := rfl
  have hrt : (orderSchema_construct candidate now).rating = candidate.rating := rfl
  have hf : (orderSchema_construct candidate now).feedback =
      candidate.feedback.map JsString.trim := rfl
  unfold orderSchema_validate ratingAndFeedbackValid
  rw [hitems, hu, ha, hd, hrt, hf, enum_construct]
  simp only [List.append_eq_nil, pathError_nil, if_true, true_and, and_true, and_assoc]

theorem save_saved_iff (candidate : OrderDoc) (now : Int) :
    (∃ doc, orderModel_save candidate now = .saved doc) ↔
      requiredString candidate.userId = true ∧ requiredValue candidate.amount = true ∧
      requiredValue candidate.address = true ∧
      enumValidator STATUS_VALUES candidate.status = true ∧
      ratingAndFeedbackValid candidate := by
  rw [← validate_construct_nil_iff candidate now]
  unfold orderModel_save
  constructor
  · rintro ⟨doc, h⟩
    split at h
    · assumption
    · exact SaveResult.noConfusion h
  · intro h
    exact ⟨_, if_pos h⟩

theorem save_eq_construct (candidate : OrderDoc) (now : Int) (doc : OrderDoc)
    (h : orderModel_save candidate now = .saved doc) :
    doc = orderSchema_construct candidate now := by
  unfold orderModel_save at h
  split at h
  · injection h with hdoc
    exact hdoc.symm
  · exact SaveResult.noConfusion h

theorem save_valid (candidate : OrderDoc) (now : Int) (hr : requiredPresent candidate)
    (ho : ratingAndFeedbackValid candidate)
    (hs : enumValidator STATUS_VALUES candidate.status = true) :
    orderModel_save candidate now = .saved (orderSchema_construct candidate now) := by
  unfold orderModel_save
  rw [if_pos]
  exact (validate_construct_nil_iff candidate now).2 ⟨hr.1, hr.2.2.1, hr.2.2.2, hs, ho⟩

/-- C7, as stated, fails: the candidate `sevenStarDelivered` has the required fields and the
status `"Delivered"`, one of the six values, yet validation does not succeed: persisting
fails with a `ValidationError` on `rating`. -/
theorem valid_status_rejected_for_rating :
    requiredPresent sevenStarDelivered ∧
    sevenStarDelivered.status = some "Delivered" ∧ "Delivered" ∈ STATUS_VALUES ∧
    orderModel_save sevenStarDelivered 0 = .validationError ["rating"] := by
  refine ⟨⟨rfl, rfl, rfl, rfl⟩, rfl, by decide, ?_⟩
  have hv : orderSchema_validate (orderSchema_construct sevenStarDelivered 0) = ["rating"] := by
    have h1 : minValidator 1 (some (7 : ℚ)) = true := by
      norm_num [minValidator]
    have h2 : maxValidator 5 (some (7 : ℚ)) = false := by
      norm_num [maxValidator]
    simp [orderSchema_validate, orderSchema_construct, sevenStarDelivered, minimalCandidate,
      requiredString, requiredValue, enumValidator, STATUS_VALUES, maxlengthValidator, h1, h2]
  unfold orderModel_save
  rw [hv]
  simp

/-- C7, amended: validation against `orderSchema` reports an error on `status` exactly when
`status` is given as a string outside the six values of `STATUS_VALUES`, and then persisting
fails with a `ValidationError` naming `status` (so for `"InvalidValue"`); a status among the
six passes the validation of `status`, and for a candidate with the required fields present
persisting then succeeds iff `rating` and `feedback` satisfy their own constraints, with the
given status stored; a candidate given with no status gets the status `"Food Processing"`,
passes the validation of `status`, is stored (required fields present) iff `rating` and
`feedback` are valid, and is stored with the status `"Food Processing"`. -/
theorem status_enum_and_default (candidate : OrderDoc) (now : Int) :
    STATUS_VALUES = ["Food Processing", "Out for delivery", "Delivered", "Redistribute",
      "Cancelled", "Donated"] ∧
    ("status" ∈ orderSchema_validate (orderSchema_construct candidate now) ↔
      ∃ s, candidate.status = some s ∧ s ∉ STATUS_VALUES) ∧
    (∀ s, candidate.status = some s → s ∉ STATUS_VALUES →
      ∃ paths, orderModel_save candidate now = .validationError paths ∧ "status" ∈ paths) ∧
    (candidate.status = some "InvalidValue" →
      ∃ paths, orderModel_save candidate now = .validationError paths ∧ "status" ∈ paths) ∧
    (∀ s, candidate.status = some s → s ∈ STATUS_VALUES →
      "status" ∉ orderSchema_validate (orderSchema_construct candidate now)) ∧
    (requiredPresent candidate → ∀ s, candidate.status = some s → s ∈ STATUS_VALUES →
      ((∃ doc, orderModel_save candidate now = .saved doc) ↔
        ratingAndFeedbackValid candidate) ∧
      (ratingAndFeedbackValid candidate →
        ∃ doc, orderModel_save candidate now = .saved doc ∧ doc.status = some s) ∧
      (∀ doc, orderModel_save candidate now = .saved doc → doc.status = some s)) ∧
    (candidate.status = none →
      (orderSchema_construct candidate now).status = some "Food Processing" ∧
      "status" ∉ orderSchema_validate (orderSchema_construct candidate now) ∧
      ∀ doc, orderModel_save candidate now = .saved doc →
        doc.status = some "Food Processing") ∧
    (requiredPresent candidate → candidate.status = none →
      ((∃ doc, orderModel_save candidate now = .saved doc) ↔
        ratingAndFeedbackValid candidate) ∧
      (ratingAndFeedbackValid candidate →
        ∃ doc, orderModel_save candidate now = .saved doc ∧
          doc.status = some "Food Processing")) := by
  have hiff : "status" ∈ orderSchema_validate (orderSchema_construct candidate now) ↔
      ∃ s, candidate.status = some s ∧ s ∉ STATUS_VALUES := by
    rw [status_error_iff, enum_construct]
    unfold enumValidator
    cases hs : candidate.status with
    | none => simp
    | some s => simp
  have hbad : ∀ s, candidate.status = some s → s ∉ STATUS_VALUES →
      ∃ paths, orderModel_save candidate now = .validationError paths ∧ "status" ∈ paths :=
    fun s hs hn => save_of_error candidate now "status" (hiff.2 ⟨s, hs, hn⟩)
  have hsaved : requiredPresent candidate → enumValidator STATUS_VALUES candidate.status = true →
      ((∃ doc, orderModel_save candidate now = .saved doc) ↔
        ratingAndFeedbackValid candidate) := by
    intro hr he
    rw [save_saved_iff]
    exact ⟨fun h => h.2.2.2.2, fun h => ⟨hr.1, hr.2.2.1, hr.2.2.2, he, h⟩⟩
  refine ⟨rfl, hiff, hbad, ?_, ?_, ?_, ?_, ?_⟩
  · intro hs
    exact hbad "InvalidValue" hs (by decide)
  · intro s hs hmem hin
    obtain ⟨t, ht, hnot⟩ := hiff.1 hin
    rw [hs] at ht
    exact hnot (Option.some.inj ht ▸ hmem)
  · intro hr s hs hmem
    have he : enumValidator STATUS_VALUES candidate.status = true := by
      simp [hs, enumValidator, hmem]
    have hst : (orderSchema_construct candidate now).status = some s := by
      simp [orderSchema_construct, hs]
    refine ⟨hsaved hr he, ?_, ?_⟩
    · intro ho
      exact ⟨orderSchema_construct candidate now, save_valid candidate now hr ho he, hst⟩
    · intro doc hsave
      rw [save_eq_construct candidate now doc hsave]
      exact hst
  · intro hs
    have hc : (orderSchema_construct candidate now).status = some "Food Processing" := by
      simp [orderSchema_construct, hs]
    refine ⟨hc, ?_, ?_⟩
    · intro hin
      obtain ⟨t, ht, _⟩ := hiff.1 hin
      rw [hs] at ht
      exact Option.noConfusion ht
    · intro doc hsave
      rw [save_eq_construct candidate now doc hsave]
      exact hc
  · intro hr hs
    have he : enumValidator STATUS_VALUES candidate.status = true := by
      simp [hs, enumValidator]
    refine ⟨hsaved hr he, ?_⟩
    intro ho
    refine ⟨orderSchema_construct candidate now, save_valid candidate now hr ho he, ?_⟩
    simp [orderSchema_construct, hs]

/-- Witness for the amended C7: `"InvalidValue"` is rejected with an error on `status`, and
the minimal candidate, given with no status, is stored with the status
`"Food Processing"`. -/
theorem status_enum_and_default_witness :
    (invalidStatusCandidate.status = some "InvalidValue" ∧
      ∃ paths, orderModel_save invalidStatusCandidate 0 = .validationError paths ∧
        "status" ∈ paths) ∧
    (minimalCandidate.status = none ∧
      ∃ doc, orderModel_save minimalCandidate 0 = .saved doc ∧
        doc.status = some "Food Processing") :=
  ⟨⟨rfl, (status_enum_and_default invalidStatusCandidate 0).2.2.2.1 rfl⟩,
    ⟨rfl, ((status_enum_and_default minimalCandidate 0).2.2.2.2.2.2.2 ⟨rfl, rfl, rfl, rfl⟩
      rfl).2 ⟨rfl, rfl⟩⟩⟩

theorem halfStar_saved :
    orderModel_save halfStarCandidate 0 = .saved (orderSchema_construct halfStarCandidate 0) := by
  apply save_valid
  · exact ⟨rfl, rfl, rfl, rfl⟩
  · refine ⟨?_, rfl⟩
    simp [halfStarCandidate, minimalCandidate, minValidator, maxValidator]
    norm_num
  · decide

/-- A candidate without `items` and with feedback padded by no-break spaces is stored, with
the empty array for `items` and the feedback trimmed. -/
theorem paddedFeedback_saved :
    ∃ doc, orderModel_save paddedFeedbackCandidate 0 = .saved doc ∧
      doc.items = some [] ∧ doc.feedback = some "Great" := by
  refine ⟨orderSchema_construct paddedFeedbackCandidate 0, ?_, rfl, by decide⟩
  unfold orderModel_save
  rw [if_pos]
  rw [validate_construct_nil_iff]
  refine ⟨rfl, rfl, rfl, by decide, ?_, by decide⟩
  simp [paddedFeedbackCandidate, minValidator, maxValidator]
  norm_num

/-- The `maxlength` validator counts UTF-16 code units: 300 characters outside the Basic
Multilingual Plane have the length 600 and fail `maxlength: 500`. -/
theorem maxlength_counts_code_units :
    maxlengthValidator 500 (some (String.mk (List.replicate 300 '😀'))) = false := by
  have hc : (if '😀'.toNat < 65536 then 1 else 2) = 2 := by decide
  have h : JsString.length (String.mk (List.replicate 300 '😀')) = 600 := by
    show ((List.replicate 300 '😀').map (fun c => if c.toNat < 65536 then 1 else 2)).sum = 600
    rw [List.map_replicate, List.sum_replicate, hc]
    rfl
  simp only [maxlengthValidator, h]
  decide

/-- C8, as stated, fails: the candidate `halfStarCandidate`, whose rating is `4.5`, is
accepted by the validation of `orderSchema` and stored with that rating, which is not an
integer. -/
theorem non_integer_rating_accepted :
    orderModel_save halfStarCandidate 0 = .saved (orderSchema_construct halfStarCandidate 0) ∧
    (orderSchema_construct halfStarCandidate 0).rating = some (9 / 2) ∧
    ¬ ∃ n : Int, (n : ℚ) = 9 / 2 := by
  refine ⟨halfStar_saved, rfl, ?_⟩
  rintro ⟨n, hn⟩
  have h2 : ((2 * n : Int) : ℚ) = ((9 : Int) : ℚ) := by
    push_cast
    linarith
  have h3 : 2 * n = 9 := by exact_mod_cast h2
  omega

/-- C8, amended: for every record accepted by the validation of `orderSchema`, the rating,
if present, is a number `r` with `1 ≤ r ≤ 5`; a rating below 1 or above 5 is rejected with a
`ValidationError` naming `rating`; a rating within the range is accepted whether or not it
is an integer: the record is then stored iff its other paths are valid (`userId` a non-empty
string, `amount` and `address` present, `status` absent or one of the six values, the
trimmed `feedback` at most 500 code units long). -/
theorem rating_in_range (candidate : OrderDoc) (now : Int) :
    (∀ doc, orderModel_save candidate now = .saved doc →
      ∀ r, doc.rating = some r → 1 ≤ r ∧ r ≤ 5) ∧
    (∀ r, candidate.rating = some r → r < 1 ∨ 5 < r →
      ∃ paths, orderModel_save candidate now = .validationError paths ∧ "rating" ∈ paths) ∧
    (∀ r, candidate.rating = some r → 1 ≤ r → r ≤ 5 →
      ((∃ doc, orderModel_save candidate now = .saved doc ∧ doc.rating = some r) ↔
        requiredString candidate.userId = true ∧ requiredValue candidate.amount = true ∧
        requiredValue candidate.address = true ∧
        enumValidator STATUS_VALUES candidate.status = true ∧
        maxlengthValidator 500 (candidate.feedback.map JsString.trim) = true)) := by
  refine ⟨?_, ?_, ?_⟩
  · intro doc h r hr
    have hdoc := save_eq_construct candidate now doc h
    have hv := (save_saved_iff candidate now).1 ⟨doc, h⟩
    have hrat : candidate.rating = some r := by
      rw [hdoc] at hr
      exact hr
    have h1 := hv.2.2.2.2.1
    rw [hrat] at h1
    simpa [minValidator, maxValidator] using h1
  · intro r hr hout
    apply save_of_error
    rw [rating_error_iff]
    have hc : (orderSchema_construct candidate now).rating = some r := by
      simp [orderSchema_construct, hr]
    rw [hc]
    rcases hout with h | h
    · simp [minValidator, maxValidator, h]
    · simp [minValidator, maxValidator, h]
  · intro r hr h1 h5
    have hrv : (minValidator 1 candidate.rating && maxValidator 5 candidate.rating) = true := by
      simp [hr, minValidator, maxValidator, h1, h5]
    constructor
    · rintro ⟨doc, hsave, _⟩
      have hv := (save_saved_iff candidate now).1 ⟨doc, hsave⟩
      exact ⟨hv.1, hv.2.1, hv.2.2.1, hv.2.2.2.1, hv.2.2.2.2.2⟩
    · rintro ⟨hu, ha, hd, he, hf⟩
      obtain ⟨doc, hsave⟩ := (save_saved_iff candidate now).2 ⟨hu, ha, hd, he, hrv, hf⟩
      refine ⟨doc, hsave, ?_⟩
      rw [save_eq_construct candidate now doc hsave]
      simp [orderSchema_construct, hr]

/-- Witness for the amended C8: the stored rating of `halfStarCandidate` lies in `[1, 5]`,
and the rating `7` of `sevenStarCandidate` is rejected. -/
theorem rating_in_range_witness :
    ((1 : ℚ) ≤ 9 / 2 ∧ (9 / 2 : ℚ) ≤ 5) ∧
    ∃ paths, orderModel_save sevenStarCandidate 0 = .validationError paths ∧
      "rating" ∈ paths :=
  ⟨(rating_in_range halfStarCandidate 0).1 _ halfStar_saved (9 / 2) rfl,
    (rating_in_range sevenStarCandidate 0).2.1 7 rfl (Or.inr (by norm_num))⟩

end OrderModel
